import Mathlib

/-!
Verification of the greeter script in src/tester.py.

The script builds an argparse command line with three required options,
parses the process arguments, and prints one greeting per index in
range(clone_count).  The embedding below translates each piece:

* pyInt models the Python int() conversion applied by argparse for the
  type=int option: strip surrounding whitespace, accept an optional
  sign, then a nonempty run of decimal digits with single underscores
  allowed between digits.
* Invocation records what the command line supplies for the three
  options: the raw text (or absence) of clone_name and clone_count and
  whether the greet flag is present.
* parse_args models argparse.parse_args over those three options: any
  missing required option or a count that int() rejects is a usage
  error, otherwise the parsed Args record is returned.
* run models the module body: a usage error terminates the process with
  exit status 2 and one diagnostic write on the error stream; otherwise
  the loop performs one stdout write per index, each the greeting text
  followed by the newline that print appends, and the process exits 0.

Observable behaviour is an explicit effect trace so that frame claims
are statements: the Effect type has constructors for stream writes as
well as for file and network actions, and the embedding of the source
never produces the latter because the source never performs them.
-/

/-- True on the characters the Python int() conversion strips from both
ends of its argument (the ASCII whitespace characters). -/
def pyIsSpace (c : Char) : Bool :=
  c = ' ' || c = '\t' || c = '\n' || c = '\r' || c = '\x0b' || c = '\x0c'

/-- Numeric value of a decimal digit character. -/
def digitVal (c : Char) : Nat := c.toNat - 48

/-- Continuation of the digit scan of pyParseDigits: consumes further
digits, allowing a single underscore between two digits as Python int()
does, and fails on anything else. -/
def pyDigitsGo (acc : Nat) : List Char → Option Nat
  | [] => some acc
  | '_' :: c :: cs =>
      if c.isDigit then pyDigitsGo (acc * 10 + digitVal c) cs else none
  | c :: cs =>
      if c.isDigit then pyDigitsGo (acc * 10 + digitVal c) cs else none

/-- Value of a nonempty digit run, the core of the Python int()
conversion; empty input or a non-digit first character fails. -/
def pyParseDigits : List Char → Option Nat
  | [] => none
  | c :: cs => if c.isDigit then pyDigitsGo (digitVal c) cs else none

/-- Both-ends whitespace strip performed by the Python int() conversion. -/
def pyStrip (cs : List Char) : List Char :=
  ((cs.dropWhile pyIsSpace).reverse.dropWhile pyIsSpace).reverse

/-- The Python int() conversion that argparse applies to the value of
the type=int option clone_count: strip whitespace, read an optional
sign, then a nonempty digit run. -/
def pyInt (s : String) : Option Int :=
  match pyStrip s.toList with
  | '+' :: rest => (pyParseDigits rest).map Int.ofNat
  | '-' :: rest => (pyParseDigits rest).map (fun n => -(n : Int))
  | cs => (pyParseDigits cs).map Int.ofNat

/-- The parsed-argument record produced by parser.parse_args: the three
attributes of the argparse namespace object. -/
structure Args where
  clone_name : String
  clone_count : Int
  greet : Bool
  deriving DecidableEq, Repr

/-- What one invocation of the script supplies for the three declared
options: the raw text given for clone_name and for clone_count (none
when the option is absent) and whether the greet flag appears. -/
structure Invocation where
  clone_name : Option String
  clone_count : Option String
  greet : Bool
  deriving DecidableEq, Repr

/-- argparse.parse_args over the three options declared in the source:
clone_name (required string), clone_count (required, converted by
int()), and greet (store_true, required).  A missing required option or
a count rejected by int() is a usage error. -/
def parse_args (inv : Invocation) : Except String Args :=
  match inv.clone_name with
  | none => Except.error "the following arguments are required: -c/--clone_name"
  | some name =>
    match inv.clone_count with
    | none => Except.error "the following arguments are required: -n/--clone_count"
    | some raw =>
      match pyInt raw with
      | none => Except.error ("argument -n/--clone_count: invalid int value: " ++ raw)
      | some n =>
        if inv.greet then Except.ok ⟨name, n, true⟩
        else Except.error "the following arguments are required: --greet"

/-- The text printed for clone index i, before the newline appended by
print: the f-string interpolates clone_name and the index verbatim. -/
def greeting (clone_name : String) (i : Nat) : String :=
  "👽 says: Hello, " ++ clone_name ++ toString i ++ "!"

/-- The greeting loop of the module body: one line per element of
range(clone_count), which is empty when clone_count is nonpositive. -/
def mainLoop (args : Args) : List String :=
  (List.range args.clone_count.toNat).map (greeting args.clone_name)

/-- One observable action of the process.  The source only ever writes
to the standard streams; file and network actions are listed so that
their absence from every trace is a provable statement. -/
inductive Effect where
  | stdoutWrite (text : String)
  | stderrWrite (text : String)
  | fileWrite (path text : String)
  | netSend (host text : String)
  deriving DecidableEq, Repr

/-- The whole script: parse_args, then the greeting loop.  The result
is the process exit status and the trace of observable actions.  On a
usage error argparse prints a diagnostic on the error stream and exits
with status 2 before any loop output; on success each print call is one
stdout write of the greeting followed by a newline, and the process
exits 0. -/
def run (inv : Invocation) : Nat × List Effect :=
  match parse_args inv with
  | Except.error msg => (2, [Effect.stderrWrite ("usage error: " ++ msg ++ "\n")])
  | Except.ok args =>
      (0, (mainLoop args).map (fun line => Effect.stdoutWrite (line ++ "\n")))

/-- The contribution of one effect to the standard output stream. -/
def effectStdoutText : Effect → String
  | Effect.stdoutWrite t => t
  | _ => ""

/-- The contribution of one effect to the standard error stream. -/
def effectStderrText : Effect → String
  | Effect.stderrWrite t => t
  | _ => ""

/-- The full text a trace puts on standard output. -/
def stdoutText (es : List Effect) : String :=
  String.join (es.map effectStdoutText)

/-- The full text a trace puts on standard error. -/
def stderrText (es : List Effect) : String :=
  String.join (es.map effectStderrText)

/-- Number of newline characters in a string, which is the number of
physical lines the string contributes to a stream. -/
def newlineCount (s : String) : Nat :=
  s.toList.countP (fun c => c = '\n')

/-- On success parse_args yields the record built from the supplied
name, the int() value of the supplied count text, and a true flag. -/
lemma parse_args_full (X raw : String) (N : Int) (h : pyInt raw = some N) :
    parse_args ⟨some X, some raw, true⟩ = Except.ok ⟨X, N, true⟩ := by
  simp [parse_args, h]

/-- A successful parse runs the loop: exit status 0 and one stdout
write per greeting line. -/
lemma run_of_ok (inv : Invocation) (args : Args)
    (h : parse_args inv = Except.ok args) :
    run inv = (0, (mainLoop args).map fun line => Effect.stdoutWrite (line ++ "\n")) := by
  simp [run, h]

/-- A fully supplied invocation runs the loop on the parsed count. -/
lemma run_ok_eq (X raw : String) (N : Int) (h : pyInt raw = some N) :
    run ⟨some X, some raw, true⟩ =
      (0, (List.range N.toNat).map fun i => Effect.stdoutWrite (greeting X i ++ "\n")) := by
  rw [run_of_ok _ _ (parse_args_full X raw N h)]
  simp [mainLoop]

/-- A parse failure terminates with status 2 and a single diagnostic
write on the error stream. -/
lemma run_of_error (inv : Invocation) (msg : String)
    (h : parse_args inv = Except.error msg) :
    run inv = (2, [Effect.stderrWrite ("usage error: " ++ msg ++ "\n")]) := by
  simp [run, h]

/-- Any of the four validation defects makes parse_args fail. -/
lemma parse_args_error_of (inv : Invocation)
    (h : inv.clone_name = none ∨ inv.clone_count = none ∨
         (∃ raw, inv.clone_count = some raw ∧ pyInt raw = none) ∨ inv.greet = false) :
    ∃ msg, parse_args inv = Except.error msg := by
  obtain ⟨n?, c?, g⟩ := inv
  rcases h with h | h | ⟨raw, hraw, hpi⟩ | h
  · cases h
    exact ⟨_, rfl⟩
  · cases h
    cases n? with
    | none => exact ⟨_, rfl⟩
    | some X => exact ⟨_, rfl⟩
  · cases hraw
    cases n? with
    | none => exact ⟨_, rfl⟩
    | some X =>
      refine ⟨"argument -n/--clone_count: invalid int value: " ++ raw, ?_⟩
      simp [parse_args, hpi]
  · cases h
    cases n? with
    | none => exact ⟨_, rfl⟩
    | some X =>
      cases c? with
      | none => exact ⟨_, rfl⟩
      | some raw =>
        cases hpi : pyInt raw with
        | none =>
          refine ⟨"argument -n/--clone_count: invalid int value: " ++ raw, ?_⟩
          simp [parse_args, hpi]
        | some n =>
          refine ⟨"the following arguments are required: --greet", ?_⟩
          simp [parse_args, hpi]

/-- A diagnostic prefixed by the usage banner is never the empty
string. -/
lemma usage_msg_ne_empty (msg : String) : ("usage error: " ++ msg ++ "\n") ≠ "" := by
  intro h
  have h2 := congrArg String.length h
  have h13 : ("usage error: " : String).length = 13 := rfl
  have h1 : ("\n" : String).length = 1 := rfl
  have h0 : ("" : String).length = 0 := rfl
  rw [String.length_append, String.length_append, h13, h1, h0] at h2
  omega

/-- An error-stream write contributes nothing to standard output. -/
lemma stdoutText_of_err (t : String) : stdoutText [Effect.stderrWrite t] = "" := rfl

/-- The error trace of a usage failure carries exactly the diagnostic. -/
lemma stderrText_of_err (t : String) : stderrText [Effect.stderrWrite t] = t := rfl

example : pyInt "3" = some 3 := by decide
example : pyInt " -12 " = some (-12) := by decide
example : pyInt "abc" = none := by decide
example : pyInt "1_0" = some 10 := by decide
example : pyInt "" = none := by decide
example : run ⟨some "Bob", some "3", true⟩ =
    (0, [Effect.stdoutWrite "👽 says: Hello, Bob0!\n",
         Effect.stdoutWrite "👽 says: Hello, Bob1!\n",
         Effect.stdoutWrite "👽 says: Hello, Bob2!\n"]) := by decide

/-- C1: for every valid invocation (name X, count text parsing to N with
N nonnegative, greet flag present) the program exits 0 and writes
exactly N stdout lines, the i-th being the greeting for X and index i,
indices ascending from 0. -/
theorem greet_emits_exactly_n_lines (X raw : String) (N : Int)
    (hparse : pyInt raw = some N) (hN : 0 ≤ N) :
    (run ⟨some X, some raw, true⟩).1 = 0 ∧
    ((run ⟨some X, some raw, true⟩).2.length : Int) = N ∧
    ∀ i : Nat, (i : Int) < N →
      (run ⟨some X, some raw, true⟩).2.get? i =
        some (Effect.stdoutWrite ("👽 says: Hello, " ++ X ++ toString i ++ "!" ++ "\n")) := by
  rw [run_ok_eq X raw N hparse]
  refine ⟨rfl, ?_, ?_⟩
  · simp
    omega
  · intro i hi
    have hi' : i < N.toNat := by omega
    simp [List.get?_eq_getElem?, List.getElem?_map, List.getElem?_range, hi', greeting]

/-- Witness for C1 at X = A, raw count 2, line index 1. -/
theorem greet_emits_exactly_n_lines_witness :
    (run ⟨some "A", some "2", true⟩).2.get? 1 =
      some (Effect.stdoutWrite ("👽 says: Hello, " ++ "A" ++ toString 1 ++ "!" ++ "\n")) :=
  (greet_emits_exactly_n_lines "A" "2" 2 (by decide) (by decide)).2.2 1 (by decide)

/-- C2: a missing clone_name, a missing or unparseable clone_count, or
an absent greet flag makes the program exit nonzero with a nonempty
diagnostic on standard error and nothing on standard output. -/
theorem invalid_invocation_fails (inv : Invocation)
    (h : inv.clone_name = none ∨ inv.clone_count = none ∨
         (∃ raw, inv.clone_count = some raw ∧ pyInt raw = none) ∨ inv.greet = false) :
    (run inv).1 ≠ 0 ∧ stderrText (run inv).2 ≠ "" ∧ stdoutText (run inv).2 = "" := by
  obtain ⟨msg, hmsg⟩ := parse_args_error_of inv h
  rw [run_of_error inv msg hmsg]
  exact ⟨by simp, by rw [stderrText_of_err]; exact usage_msg_ne_empty msg,
    stdoutText_of_err _⟩

/-- Witness for C2 at the invocation supplying no argument at all. -/
theorem invalid_invocation_fails_witness :
    (run ⟨none, none, false⟩).1 ≠ 0 ∧ stderrText (run ⟨none, none, false⟩).2 ≠ "" ∧
      stdoutText (run ⟨none, none, false⟩).2 = "" :=
  invalid_invocation_fails ⟨none, none, false⟩ (Or.inl rfl)

/-- C3: with all three arguments valid and a zero or negative count,
the program writes nothing and exits 0. -/
theorem nonpositive_count_zero_lines (X raw : String) (N : Int)
    (hparse : pyInt raw = some N) (hN : N ≤ 0) :
    run ⟨some X, some raw, true⟩ = (0, []) := by
  rw [run_ok_eq X raw N hparse]
  simp [Int.toNat_of_nonpos hN]

/-- Witness for C3 at count text -5. -/
theorem nonpositive_count_zero_lines_witness :
    run ⟨some "A", some "-5", true⟩ = (0, []) :=
  nonpositive_count_zero_lines "A" "-5" (-5) (by decide) (by decide)

/-- C4: valid clone_name and clone_count without the greet flag is a
usage error: nonzero exit and no standard output. -/
theorem missing_greet_flag_fails (X raw : String) (N : Int)
    (_hparse : pyInt raw = some N) :
    (run ⟨some X, some raw, false⟩).1 ≠ 0 ∧
      stdoutText (run ⟨some X, some raw, false⟩).2 = "" := by
  obtain ⟨msg, hmsg⟩ :=
    parse_args_error_of ⟨some X, some raw, false⟩ (Or.inr (Or.inr (Or.inr rfl)))
  rw [run_of_error _ msg hmsg]
  exact ⟨by simp, stdoutText_of_err _⟩

/-- Witness for C4 at name A, count text 1. -/
theorem missing_greet_flag_fails_witness :
    (run ⟨some "A", some "1", false⟩).1 ≠ 0 ∧
      stdoutText (run ⟨some "A", some "1", false⟩).2 = "" :=
  missing_greet_flag_fails "A" "1" 1 (by decide)

/-- C5: every invocation with all required arguments present and an
integer-parseable count exits 0, and every nonzero exit comes from a
missing required argument or an unparseable count. -/
theorem exit_code_classification :
    (∀ (X raw : String) (N : Int), pyInt raw = some N →
       (run ⟨some X, some raw, true⟩).1 = 0) ∧
    (∀ inv : Invocation, (run inv).1 ≠ 0 →
       inv.clone_name = none ∨ inv.clone_count = none ∨
       (∃ raw, inv.clone_count = some raw ∧ pyInt raw = none) ∨ inv.greet = false) := by
  constructor
  · intro X raw N h
    rw [run_ok_eq X raw N h]
  · intro inv h
    obtain ⟨n?, c?, g⟩ := inv
    cases n? with
    | none => exact Or.inl rfl
    | some X =>
      cases c? with
      | none => exact Or.inr (Or.inl rfl)
      | some raw =>
        cases hpi : pyInt raw with
        | none => exact Or.inr (Or.inr (Or.inl ⟨raw, rfl, hpi⟩))
        | some n =>
          cases g with
          | false => exact Or.inr (Or.inr (Or.inr rfl))
          | true =>
            exact absurd (by rw [run_ok_eq X raw n hpi]) h

/-- Witness for C5: a fully supplied invocation exits 0. -/
theorem exit_code_classification_witness :
    (run ⟨some "A", some "7", true⟩).1 = 0 :=
  exit_code_classification.1 "A" "7" 7 (by decide)

/-- C6: the invocation with name Bob, count 3 and the greet flag prints
exactly the three Bob greetings in ascending index order and exits 0. -/
theorem bob_three_example :
    run ⟨some "Bob", some "3", true⟩ =
      (0, [Effect.stdoutWrite "👽 says: Hello, Bob0!\n",
           Effect.stdoutWrite "👽 says: Hello, Bob1!\n",
           Effect.stdoutWrite "👽 says: Hello, Bob2!\n"]) := by
  decide

/-- C7: on every successful run the whole effect trace consists of
stdout writes alone: no error-stream write, no file action, no network
action. -/
theorem success_effects_stdout_only (inv : Invocation) (h : (run inv).1 = 0) :
    ∀ e ∈ (run inv).2, ∃ t, e = Effect.stdoutWrite t := by
  cases hp : parse_args inv with
  | error msg =>
    rw [run_of_error inv msg hp] at h
    simp at h
  | ok args =>
    rw [run_of_ok inv args hp]
    intro e he
    simp at he
    obtain ⟨line, _, hline⟩ := he
    exact ⟨line ++ "\n", hline.symm⟩

/-- Witness for C7 at a one-line run, checked on its first effect. -/
theorem success_effects_stdout_only_witness :
    ∃ t, Effect.stdoutWrite "👽 says: Hello, A0!\n" = Effect.stdoutWrite t :=
  success_effects_stdout_only ⟨some "A", some "1", true⟩ (by decide)
    (Effect.stdoutWrite "👽 says: Hello, A0!\n") (by decide)

/-- C8: for every integer clone_count, including negative ones, the
greeting loop performs exactly max(clone_count, 0) iterations, one line
each. -/
theorem loop_iteration_count (args : Args) :
    ((mainLoop args).length : Int) = max args.clone_count 0 := by
  simp [mainLoop]

/-- C9: the loop output is a function of clone_name and clone_count
alone: the greet field never influences it, and any two successfully
parsed invocations agreeing on name and count produce identical effect
traces. -/
theorem output_function_of_name_count :
    (∀ (name : String) (count : Int) (g g' : Bool),
       mainLoop ⟨name, count, g⟩ = mainLoop ⟨name, count, g'⟩) ∧
    (∀ (inv inv' : Invocation) (a a' : Args),
       parse_args inv = Except.ok a → parse_args inv' = Except.ok a' →
       a.clone_name = a'.clone_name → a.clone_count = a'.clone_count →
       (run inv).2 = (run inv').2) := by
  constructor
  · intro name count g g'
    rfl
  · intro inv inv' a a' h h' hn hc
    rw [run_of_ok inv a h, run_of_ok inv' a' h']
    obtain ⟨n1, c1, g1⟩ := a
    obtain ⟨n2, c2, g2⟩ := a'
    simp only at hn hc
    subst hn
    subst hc
    rfl

/-- Witness for C9: two invocations whose raw count texts differ but
parse alike produce the same trace. -/
theorem output_function_of_name_count_witness :
    (run ⟨some "A", some "2", true⟩).2 = (run ⟨some "A", some " 2 ", true⟩).2 :=
  output_function_of_name_count.2 ⟨some "A", some "2", true⟩ ⟨some "A", some " 2 ", true⟩
    ⟨"A", 2, true⟩ ⟨"A", 2, true⟩ (by rfl) (by rfl) rfl rfl

/-- C10: the name is interpolated verbatim, so the i-th emitted record
is exactly the concatenation of the banner, the name, the decimal
index and the bang, followed by the newline print appends; with a name
containing a newline the physical stdout line count exceeds the clone
count (here 2 physical lines for count 1). -/
theorem verbatim_name_interpolation :
    (∀ (X raw : String) (N : Int) (i : Nat), pyInt raw = some N → i < N.toNat →
       (run ⟨some X, some raw, true⟩).2.get? i =
         some (Effect.stdoutWrite ("👽 says: Hello, " ++ X ++ toString i ++ "!" ++ "\n"))) ∧
    1 < newlineCount (stdoutText (run ⟨some "A\nB", some "1", true⟩).2) := by
  constructor
  · intro X raw N i hparse hi
    rw [run_ok_eq X raw N hparse]
    simp [List.get?_eq_getElem?, List.getElem?_map, List.getElem?_range, hi, greeting]
  · decide

/-- Witness for C10 at name Bob, count 3, record index 2. -/
theorem verbatim_name_interpolation_witness :
    (run ⟨some "Bob", some "3", true⟩).2.get? 2 =
      some (Effect.stdoutWrite ("👽 says: Hello, " ++ "Bob" ++ toString 2 ++ "!" ++ "\n")) :=
  verbatim_name_interpolation.1 "Bob" "3" 3 2 (by decide) (by decide)
